import Mathlib

/-
Verification of the instance resource orchestrator
(src/pkg/knuu/instance_helper.go) against its specification.

The Go code is embedded shallowly: the cluster client (pkg/k8s, not part of
the sources under inspection) is modelled from the specification as an
explicit world state threaded through every operation, randomness (uuid
generation) and injected collaborator failures are explicit parameters, and
Go functions that may panic return a GoOutcome.
-/

set_option autoImplicit false
set_option maxHeartbeats 1000000

namespace Knuu

/-- Outcome of running a Go function that may panic: a normal return value or
a runtime panic carrying a message. -/
inductive GoOutcome (α : Type) where
  | normal (a : α)
  | panicked (msg : String)
  deriving DecidableEq, Repr

/-- Errors of the embedding: the not-found and conflict outcomes of the
cluster client, plain messages, and the wrapping that Go's
fmt.Errorf with a wrapped cause performs. -/
inductive Err where
  | notFound (name : String)
  | conflict (name : String)
  | msg (s : String)
  | wrapped (context : String) (cause : Err)
  deriving DecidableEq, Repr

/-- True exactly on the ok constructor of Except. -/
def isOkE {ε α : Type} : Except ε α → Bool
  | .ok _ => true
  | .error _ => false

/-- Association-list lookup keyed by string, used by the cluster stores. -/
def alookup {α : Type} : List (String × α) → String → Option α
  | [], _ => none
  | (k, v) :: rest, name => if k = name then some v else alookup rest name

/-- Association-list update: replaces the value at every entry whose key
matches. -/
def aset {α : Type} : List (String × α) → String → α → List (String × α)
  | [], _, _ => []
  | (k, v) :: rest, name, v' =>
    if k = name then (k, v') :: aset rest name v' else (k, v) :: aset rest name v'

/-- Association-list removal of every entry whose key matches. -/
def aremove {α : Type} : List (String × α) → String → List (String × α)
  | [], _ => []
  | (k, v) :: rest, name =>
    if k = name then aremove rest name else (k, v) :: aremove rest name

/-- Cluster Service resource as the orchestrator observes it: metadata
labels, selector, and declared TCP/UDP ports — the fields of the service
objects read and written by instance_helper.go. -/
structure ServiceSpec where
  labels : List (String × String)
  selector : List (String × String)
  portsTCP : List Int
  portsUDP : List Int
  deriving DecidableEq, Repr

/-- Volume declaration of an instance: path, size (a quantity string such as
"1Gi") and owner. -/
structure Volume where
  path : String
  size : String
  owner : String
  deriving DecidableEq, Repr

/-- Modelled from the spec: the classification tag of an instance, which
influences labeling only (spec section 3); its concrete enumeration lives
outside the sources under inspection. -/
inductive InstanceType where
  | basicInstance
  | nomadInstance
  deriving DecidableEq, Repr

/-- String rendering of the instance type, standing for the Go method
InstanceType.String used by getLabels. -/
def InstanceType.str : InstanceType → String
  | .basicInstance => "BasicInstance"
  | .nomadInstance => "NomadInstance"

/-- Modelled from the spec: lifecycle state of an instance (spec sections 3
and 9); its concrete enumeration lives outside the sources under inspection
and is only copied around here. -/
inductive InstanceState where
  | created
  | started
  | destroyed
  deriving DecidableEq, Repr

/-- Pod configuration assembled by deployPod (k8s.PodConfig). -/
structure PodConfig where
  nspace : String
  name : String
  labels : List (String × String)
  image : String
  command : List String
  args : List String
  env : List (String × String)
  volumes : List Volume
  memoryRequest : String
  memoryLimit : String
  cpuRequest : String
  serviceAccountName : String
  deriving DecidableEq, Repr

/-- StatefulSet configuration assembled by deployPod
(k8s.StatefulSetConfig). -/
structure StatefulSetConfig where
  nspace : String
  name : String
  labels : List (String × String)
  replicas : Int
  podConfig : PodConfig
  deriving DecidableEq, Repr

/-- One persistent-volume-claim creation request observed by the cluster
model: name, labels and the aggregate capacity in base units. -/
structure PVCRecord where
  name : String
  labels : List (String × String)
  capacity : Int
  deriving DecidableEq, Repr

/-- Modelled from the spec: the observable state of the cluster resource
client (spec section 6), restricted to the single namespace that every call
in the source passes. The stores are keyed by cluster name; svcCreateLog,
ssDeployLog and ssDeleteLog record every creation and deletion attempt;
failPVCCreate injects a failure of the claim-creation primitive. -/
structure World where
  services : List (String × ServiceSpec)
  statefulSets : List (String × StatefulSetConfig)
  pvcs : List PVCRecord
  svcCreateLog : List String
  ssDeployLog : List StatefulSetConfig
  ssDeleteLog : List (String × Int)
  failPVCCreate : Bool
  deriving DecidableEq, Repr

/-- The Instance entity, with the fields instance_helper.go touches. -/
structure Instance where
  name : String
  k8sName : String
  imageName : String
  state : InstanceState
  instanceType : InstanceType
  kubernetesService : Option ServiceSpec
  builderFactory : Nat
  kubernetesStatefulSet : Option StatefulSetConfig
  portsTCP : List Int
  portsUDP : List Int
  command : List String
  args : List String
  env : List (String × String)
  volumes : List Volume
  memoryRequest : String
  memoryLimit : String
  cpuRequest : String
  serviceAccountName : String
  deriving DecidableEq, Repr

/-- Modelled from the spec: the process-wide run-scoped values read by
getLabels and the externally supplied namespace (spec sections 6 and 9),
made an explicit configuration record. -/
structure RunConfig where
  identifier : String
  startTime : String
  nspace : String
  deriving DecidableEq, Repr

/-- getLabels (instance_helper.go lines 59-69): the canonical label set of an
instance. -/
def getLabels (cfg : RunConfig) (i : Instance) : List (String × String) :=
  [("app", i.k8sName),
   ("k8s.kubernetes.io/managed-by", "knuu"),
   ("test-run-id", cfg.identifier),
   ("test-started", cfg.startTime),
   ("name", i.name),
   ("k8s-name", i.k8sName),
   ("type", i.instanceType.str)]

/-- getImageRegistry (instance_helper.go lines 15-26): returns the image name
when already set, otherwise derives a short-lived ttl.sh reference from the
supplied uuid outcome. -/
def getImageRegistry (i : Instance) (u : Except String String) : Except Err String :=
  if i.imageName ≠ "" then .ok i.imageName
  else
    match u with
    | .error e => .error (.wrapped "error generating UUID" (.msg e))
    | .ok s => .ok ("ttl.sh/" ++ s ++ ":1h")

/-- Modelled from the spec: the get primitive of the cluster client for
Service resources (spec section 6); not-found is an error outcome. -/
def k8sGetService (w : World) (name : String) : Except Err ServiceSpec :=
  match alookup w.services name with
  | some svc => .ok svc
  | none => .error (.notFound name)

/-- Modelled from the spec: the create primitive of the cluster client for
Service resources (spec sections 4.4 and 6); every attempt is logged, and a
create against an existing resource fails with a conflict error. -/
def k8sDeployService (w : World) (name : String) (labels selector : List (String × String))
    (tcp udp : List Int) : World × Except Err ServiceSpec :=
  let w' := { w with svcCreateLog := w.svcCreateLog ++ [name] }
  match alookup w'.services name with
  | some _ => (w', .error (.conflict name))
  | none =>
    let svc : ServiceSpec := ⟨labels, selector, tcp, udp⟩
    ({ w' with services := w'.services ++ [(name, svc)] }, .ok svc)

/-- Modelled from the spec: the patch primitive of the cluster client for
Service resources (spec section 6); patching assumes existence and fails
with not-found otherwise. -/
def k8sPatchService (w : World) (name : String) (labels selector : List (String × String))
    (tcp udp : List Int) : World × Except Err Unit :=
  match alookup w.services name with
  | none => (w, .error (.notFound name))
  | some _ =>
    ({ w with services := aset w.services name ⟨labels, selector, tcp, udp⟩ }, .ok ())

/-- Modelled from the spec: the delete primitive of the cluster client for
Service resources (spec section 6); deleting a missing resource yields a
not-found error, and inj injects an arbitrary collaborator failure. -/
def k8sDeleteService (w : World) (name : String) (inj : Option Err) : World × Except Err Unit :=
  match inj with
  | some e => (w, .error e)
  | none =>
    match alookup w.services name with
    | none => (w, .error (.notFound name))
    | some _ => ({ w with services := aremove w.services name }, .ok ())

/-- Modelled from the spec: the workload creation primitive (spec sections 2
and 6, create-or-replace for the StatefulSet resource); every attempt is
logged in ssDeployLog. -/
def k8sDeployStatefulSet (w : World) (cfg : StatefulSetConfig) :
    World × Except Err StatefulSetConfig :=
  let sets :=
    match alookup w.statefulSets cfg.name with
    | some _ => aset w.statefulSets cfg.name cfg
    | none => w.statefulSets ++ [(cfg.name, cfg)]
  ({ w with ssDeployLog := w.ssDeployLog ++ [cfg], statefulSets := sets }, .ok cfg)

/-- Modelled from the spec: the workload deletion primitive with grace period
(spec section 6); every attempt is logged with the grace period passed,
deleting a missing workload yields not-found, and inj injects an arbitrary
collaborator failure. -/
def k8sDeleteStatefulSetWithGracePeriod (w : World) (name : String) (grace : Int)
    (inj : Option Err) : World × Except Err Unit :=
  let w' := { w with ssDeleteLog := w.ssDeleteLog ++ [(name, grace)] }
  match inj with
  | some e => (w', .error e)
  | none =>
    match alookup w'.statefulSets name with
    | none => (w', .error (.notFound name))
    | some _ => ({ w' with statefulSets := aremove w'.statefulSets name }, .ok ())

/-- True when a claim with the given name is present. -/
def pvcExists : List PVCRecord → String → Bool
  | [], _ => false
  | r :: rest, name => r.name = name || pvcExists rest name

/-- Removes every claim with the given name. -/
def pvcRemove : List PVCRecord → String → List PVCRecord
  | [], _ => []
  | r :: rest, name => if r.name = name then pvcRemove rest name else r :: pvcRemove rest name

/-- Modelled from the spec: the claim-creation primitive (spec section 6);
the request is always recorded, and the outcome fails when failPVCCreate is
set. -/
def k8sDeployPersistentVolumeClaim (w : World) (name : String)
    (labels : List (String × String)) (size : Int) : World × Except Err Unit :=
  let w' := { w with pvcs := w.pvcs ++ [⟨name, labels, size⟩] }
  if w.failPVCCreate then (w', .error (.msg "pvc creation failed")) else (w', .ok ())

/-- Modelled from the spec: the claim-deletion primitive (spec section 6);
deleting a missing claim yields not-found, and inj injects an arbitrary
collaborator failure. -/
def k8sDeletePersistentVolumeClaim (w : World) (name : String) (inj : Option Err) :
    World × Except Err Unit :=
  match inj with
  | some e => (w, .error e)
  | none =>
    if pvcExists w.pvcs name then ({ w with pvcs := pvcRemove w.pvcs name }, .ok ())
    else (w, .error (.notFound name))

/-- Second half of patchService (instance_helper.go line 102): the patch call
itself, applying the handle's labels and selector together with the
instance's declared ports, with its error wrapping. -/
def patchServiceApply (i : Instance) (svc : ServiceSpec) (w : World) :
    World × Except Err Instance :=
  match k8sPatchService w i.k8sName svc.labels svc.selector i.portsTCP i.portsUDP with
  | (w', .error e) => (w', .error (.wrapped ("error patching service " ++ i.k8sName) e))
  | (w', .ok _) => (w', .ok i)

/-- patchService (instance_helper.go lines 94-108): fetches a service handle
when none is cached (failing when the fetch fails), then patches the resource
with the handle's labels and selector and the instance's current ports. -/
def patchService (i : Instance) (w : World) : World × Except Err Instance :=
  match i.kubernetesService with
  | some svc => patchServiceApply i svc w
  | none =>
    match k8sGetService w i.k8sName with
    | .error e => (w, .error (.wrapped ("error getting service " ++ i.k8sName) e))
    | .ok svc => patchServiceApply { i with kubernetesService := some svc } svc w

/-- deployService (instance_helper.go lines 72-91): a lookup whose error is
discarded, a patch branch when the service was found, then — exactly as in
the source, which has no early return — an unconditional fall-through to the
creation call, whose handle is stored on success. -/
def deployService (cfg : RunConfig) (i : Instance) (w : World) : World × Except Err Instance :=
  let step1 : World × Except Err Instance :=
    match k8sGetService w i.k8sName with
    | .ok _ =>
      match patchService i w with
      | (w1, .error e) => (w1, .error (.wrapped ("error patching service " ++ i.k8sName) e))
      | (w1, .ok i1) => (w1, .ok i1)
    | .error _ => (w, .ok i)
  match step1 with
  | (w1, .error e) => (w1, .error e)
  | (w1, .ok i1) =>
    match k8sDeployService w1 i1.k8sName (getLabels cfg i1) (getLabels cfg i1)
        i1.portsTCP i1.portsUDP with
    | (w2, .error e) => (w2, .error (.wrapped ("error deploying service " ++ i1.k8sName) e))
    | (w2, .ok service) => (w2, .ok { i1 with kubernetesService := some service })

/-- destroyService (instance_helper.go lines 111-115): calls the delete
primitive, discards its result entirely and returns nil. -/
def destroyService (i : Instance) (w : World) (inj : Option Err) : World × Except Err Unit :=
  ((k8sDeleteService w i.k8sName inj).1, .ok ())

/-- deployPod (instance_helper.go lines 118-165): derives labels, resolves
the image, assembles the pod and statefulSet configurations, creates the
workload and stores the handle on the instance. The u argument stands for
the random uuid source consulted when the image is unresolved. -/
def deployPod (cfg : RunConfig) (i : Instance) (u : Except String String) (w : World) :
    World × Except Err Instance :=
  let labels := getLabels cfg i
  match getImageRegistry i u with
  | .error e => (w, .error (.wrapped "failed to get image name" e))
  | .ok imageName =>
    let podConfig : PodConfig :=
      ⟨cfg.nspace, i.k8sName, labels, imageName, i.command, i.args, i.env, i.volumes,
       i.memoryRequest, i.memoryLimit, i.cpuRequest, i.serviceAccountName⟩
    let ssConfig : StatefulSetConfig := ⟨cfg.nspace, i.k8sName, labels, 1, podConfig⟩
    match k8sDeployStatefulSet w ssConfig with
    | (w', .error e) => (w', .error (.wrapped "failed to deploy pod" e))
    | (w', .ok ss) => (w', .ok { i with kubernetesStatefulSet := some ss })

/-- destroyPod (instance_helper.go lines 169-177): deletes the workload with
a zero grace period and wraps every failure of the delete call. -/
def destroyPod (i : Instance) (w : World) (inj : Option Err) : World × Except Err Unit :=
  match k8sDeleteStatefulSetWithGracePeriod w i.k8sName 0 inj with
  | (w', .error e) => (w', .error (.wrapped "failed to delete pod" e))
  | (w', .ok _) => (w', .ok ())

/-- Value of a digit run, most significant first. -/
def digitsToNat (l : List Char) : Nat :=
  l.foldl (fun acc c => acc * 10 + (c.toNat - 48)) 0

/-- Multiplier of a quantity suffix: binary and decimal SI suffixes. -/
def suffixMultiplier : String → Option Int
  | "" => some 1
  | "Ki" => some (2 ^ 10)
  | "Mi" => some (2 ^ 20)
  | "Gi" => some (2 ^ 30)
  | "Ti" => some (2 ^ 40)
  | "Pi" => some (2 ^ 50)
  | "Ei" => some (2 ^ 60)
  | "k" => some (10 ^ 3)
  | "M" => some (10 ^ 6)
  | "G" => some (10 ^ 9)
  | "T" => some (10 ^ 12)
  | "P" => some (10 ^ 15)
  | "E" => some (10 ^ 18)
  | _ => none

/-- Modelled semantics of the quantity parsing behind resource.MustParse,
restricted to the forms this repository uses: a nonempty digit run followed
by an optional binary or decimal SI suffix; every other string fails to
parse. The result is the value in base units. -/
def parseQuantity (s : String) : Option Int :=
  let cs := s.toList
  let ds := cs.takeWhile Char.isDigit
  let sfx := cs.dropWhile Char.isDigit
  if ds.isEmpty then none
  else
    match suffixMultiplier (String.mk sfx) with
    | none => none
    | some m => some ((digitsToNat ds : Int) * m)

/-- The running sum that the loop in deployVolume computes with
size.Add(resource.MustParse(volume.Size)); none marks the panic MustParse
raises on an unparsable size. -/
def sumVolumeSizes : List Volume → Option Int
  | [] => some 0
  | v :: rest =>
    match parseQuantity v.size with
    | none => none
    | some q => (sumVolumeSizes rest).map (fun r => q + r)

/-- deployVolume (instance_helper.go lines 180-189): sums the declared sizes
with MustParse (panicking on an unparsable size), requests one claim sized to
the aggregate and labeled with the instance's labels, discards the outcome of
the creation call and returns nil. -/
def deployVolume (cfg : RunConfig) (i : Instance) (w : World) :
    GoOutcome (World × Except Err Unit) :=
  match sumVolumeSizes i.volumes with
  | none => .panicked "resource.MustParse: unable to parse quantity"
  | some size =>
    .normal ((k8sDeployPersistentVolumeClaim w i.k8sName (getLabels cfg i) size).1, .ok ())

/-- destroyVolume (instance_helper.go lines 192-197): calls the claim-delete
primitive, discards its result entirely and returns nil. -/
def destroyVolume (i : Instance) (w : World) (inj : Option Err) : World × Except Err Unit :=
  ((k8sDeletePersistentVolumeClaim w i.k8sName inj).1, .ok ())

/-- Heap of slice backing arrays: a Go int-slice value is an index into this
heap, so two slice values holding the same index alias the same backing
array. -/
abbrev SliceHeap := List (List Int)

/-- Reads the backing array of a slice reference. -/
def heapGet (h : SliceHeap) (r : Nat) : List Int := h.getD r []

/-- Replaces the backing array of a slice reference. -/
def heapSet (h : SliceHeap) (r : Nat) (l : List Int) : SliceHeap := h.set r l

/-- Go element assignment through a slice reference. -/
def sliceStore (h : SliceHeap) (r : Nat) (idx : Nat) (v : Int) : SliceHeap :=
  heapSet h r ((heapGet h r).set idx v)

/-- The Instance entity with Go reference semantics for its slice-valued port
fields: portsTCP and portsUDP hold slice references into a SliceHeap, which
is what a Go slice field is under mutation. -/
structure InstanceH where
  name : String
  k8sName : String
  imageName : String
  state : InstanceState
  instanceType : InstanceType
  kubernetesService : Option ServiceSpec
  builderFactory : Nat
  kubernetesStatefulSet : Option StatefulSetConfig
  portsTCP : Nat
  portsUDP : Nat
  command : List String
  args : List String
  env : List (String × String)
  volumes : List Volume
  memoryRequest : String
  memoryLimit : String
  cpuRequest : String
  serviceAccountName : String
  deriving DecidableEq, Repr

/-- cloneWithSuffix (instance_helper.go lines 200-220): a struct literal that
appends the suffix to name and k8sName and copies every other listed field
verbatim — in particular the slice references portsTCP and portsUDP are
copied as references. serviceAccountName is absent from the source literal,
so it receives the Go zero value. -/
def cloneWithSuffix (i : InstanceH) (suffix : String) : InstanceH :=
  { name := i.name ++ suffix
    k8sName := i.k8sName ++ suffix
    imageName := i.imageName
    state := i.state
    instanceType := i.instanceType
    kubernetesService := i.kubernetesService
    builderFactory := i.builderFactory
    kubernetesStatefulSet := i.kubernetesStatefulSet
    portsTCP := i.portsTCP
    portsUDP := i.portsUDP
    command := i.command
    args := i.args
    env := i.env
    volumes := i.volumes
    memoryRequest := i.memoryRequest
    memoryLimit := i.memoryLimit
    cpuRequest := i.cpuRequest
    serviceAccountName := "" }

/-- State of the external image-builder collaborator: the list of
addToBuilder calls it received, each a (srcPath, destPath, ownerSpec)
triple. -/
structure BuilderState where
  calls : List (String × String × String)
  deriving DecidableEq, Repr

/-- Modelled from the spec: the addToBuilder operation of the external image
builder (spec section 6); it records its argument triple and fails exactly
when the injected failure is present. -/
def addToBuilder (b : BuilderState) (src dest chown : String) (inj : Option Err) :
    BuilderState × Except Err Unit :=
  ({ calls := b.calls ++ [(src, dest, chown)] },
   match inj with
   | some e => Except.error e
   | none => Except.ok ())

/-- addFileToBuilder (instance_helper.go lines 273-280): forwards the
destination path twice, never the source path, to the builder collaborator,
wrapping its failure. -/
def addFileToBuilder (i : Instance) (b : BuilderState) (src dest chown : String)
    (inj : Option Err) : BuilderState × Except Err Unit :=
  match addToBuilder b dest dest chown inj with
  | (b', .error e) =>
    (b', .error (.wrapped ("error adding file " ++ dest ++ " to instance " ++ i.name) e))
  | (b', .ok _) => (b', .ok ())

/-- Embedding of Go strings.Contains for a single-character separator. -/
def goContainsChar : List Char → Char → Bool
  | [], _ => false
  | c :: rest, x => c = x || goContainsChar rest x

/-- Embedding of Go strings.Split for a single-character separator: splitting
the empty string yields one empty piece, and in general one piece per
separator occurrence plus one. -/
def goSplitChar : List Char → Char → List (List Char)
  | [], _ => [[]]
  | c :: rest, sep =>
    if c = sep then [] :: goSplitChar rest sep
    else
      match goSplitChar rest sep with
      | [] => [[c]]
      | x :: xs => (c :: x) :: xs

/-- Number of occurrences of a character, the specification-side count used
to state the exactly-one-separator property. -/
def countChar : List Char → Char → Nat
  | [], _ => 0
  | c :: rest, x => (if c = x then 1 else 0) + countChar rest x

/-- validateFileArgs (instance_helper.go lines 251-270): src, dest and chown
must be nonempty, and chown must contain a colon and split into exactly two
pieces on the colon. -/
def validateFileArgs (i : Instance) (src dest chown : String) : Except Err Unit :=
  if src = "" then .error (.msg "src must be set")
  else if dest = "" then .error (.msg "dest must be set")
  else if chown = "" then .error (.msg "chown must be set")
  else if !goContainsChar chown.toList ':' || (goSplitChar chown.toList ':').length != 2 then
    .error (.msg "chown must be in format user:group")
  else .ok ()

/-- Run configuration fixture. -/
def cfg0 : RunConfig := ⟨"test-run-1", "2026-01-01T00:00:00Z", "knuu-test"⟩

/-- Empty cluster fixture. -/
def w0 : World := ⟨[], [], [], [], [], [], false⟩

/-- Instance fixture: one declared TCP port, nothing deployed yet. -/
def i0 : Instance :=
  { name := "db", k8sName := "db-a1b2c3d4", imageName := "", state := .created,
    instanceType := .basicInstance, kubernetesService := none, builderFactory := 0,
    kubernetesStatefulSet := none, portsTCP := [8080], portsUDP := [],
    command := [], args := [], env := [], volumes := [],
    memoryRequest := "", memoryLimit := "", cpuRequest := "", serviceAccountName := "" }

/-- First deployService call, on the empty cluster. -/
def c1Run1 : World × Except Err Instance := deployService cfg0 i0 w0

/-- Instance as returned by the first deployService call. -/
def c1Inst1 : Instance := match c1Run1.2 with | .ok i => i | .error _ => i0

/-- Second deployService call, on the now-present service. -/
def c1Run2 : World × Except Err Instance := deployService cfg0 c1Inst1 c1Run1.1

/-- Stale service handle fixture: labels and selector differing from what the
label derivation currently produces. -/
def svcOld : ServiceSpec := ⟨[("app", "old")], [("app", "old")], [80], []⟩

/-- Instance fixture caching the stale handle. -/
def iC2 : Instance := { i0 with kubernetesService := some svcOld }

/-- Cluster fixture in which the service resource exists. -/
def wC2 : World := { w0 with services := [("db-a1b2c3d4", svcOld)] }

/-- Instance fixture with an unparsable volume size. -/
def iBadVol : Instance := { i0 with volumes := [⟨"/data", "banana", "0:0"⟩] }

/-- Instance fixture with an empty volume size. -/
def iBadVol2 : Instance := { i0 with volumes := [⟨"/data", "", "0:0"⟩] }

/-- Instance fixture with a single 1Gi volume. -/
def iOneGi : Instance := { i0 with volumes := [⟨"/data", "1Gi", "0:0"⟩] }

/-- Instance fixture with 1Gi and 2Gi volumes. -/
def iBoth : Instance :=
  { i0 with volumes := [⟨"/data", "1Gi", "0:0"⟩, ⟨"/logs", "2Gi", "0:0"⟩] }

/-- Cluster fixture in which claim creation fails. -/
def wFail : World := { w0 with failPVCCreate := true }

/-- Instance fixture with a preset image name. -/
def iNamed : Instance := { i0 with imageName := "docker.io/app:v1" }

/-- First deployPod call with an unresolved image and uuid "aaaa". -/
def c6Run1 : World × Except Err Instance := deployPod cfg0 i0 (.ok "aaaa") w0

/-- Instance as returned by the first deployPod call. -/
def c6Inst1 : Instance := match c6Run1.2 with | .ok i => i | .error _ => i0

/-- Second deployPod call on the same instance, with uuid "bbbb". -/
def c6Run2 : World × Except Err Instance := deployPod cfg0 c6Inst1 (.ok "bbbb") c6Run1.1

/-- deployPod run with a preset image name. -/
def c6wRes : World × Except Err Instance := deployPod cfg0 iNamed (.ok "zzzz") w0

/-- Instance as returned by the preset-image deployPod run. -/
def c6wInst : Instance := match c6wRes.2 with | .ok i => i | .error _ => iNamed

/-- Heap fixture: slice 0 backs portsTCP, slice 1 backs portsUDP. -/
def h0 : SliceHeap := [[8080], []]

/-- Heap-model instance fixture. -/
def iH0 : InstanceH :=
  { name := "db", k8sName := "db-a1b2c3d4", imageName := "", state := .created,
    instanceType := .basicInstance, kubernetesService := none, builderFactory := 0,
    kubernetesStatefulSet := none, portsTCP := 0, portsUDP := 1,
    command := [], args := [], env := [], volumes := [],
    memoryRequest := "", memoryLimit := "", cpuRequest := "", serviceAccountName := "" }

/-- Looking a key up after aset finds the new value exactly when the key was
present before. -/
theorem alookup_aset {α : Type} (l : List (String × α)) (k : String) (v : α) :
    alookup (aset l k v) k = (alookup l k).map (fun _ => v) := by
  induction l with
  | nil => rfl
  | cons p rest ih =>
    obtain ⟨a, b⟩ := p
    by_cases h : a = k <;> simp [aset, alookup, h, ih]

/-- A heap read of a freshly written reference returns what was written when
the reference is in range, and is otherwise unchanged. -/
theorem heapGet_heapSet_self (h : SliceHeap) (r : Nat) (x : List Int) :
    heapGet (heapSet h r x) r = if r < h.length then x else heapGet h r := by
  induction h generalizing r with
  | nil => simp [heapGet, heapSet]
  | cons a t ih =>
    cases r with
    | zero => simp [heapGet, heapSet]
    | succ n =>
      simpa [heapGet, heapSet, Nat.succ_lt_succ_iff] using ih n

/-- A heap read out of range returns the empty backing array. -/
theorem heapGet_out_of_range (h : SliceHeap) (r : Nat) (hr : h.length ≤ r) :
    heapGet h r = [] := by
  induction h generalizing r with
  | nil => rfl
  | cons a t ih =>
    cases r with
    | zero => simp at hr
    | succ n =>
      have hr' : t.length ≤ n := by simp at hr; omega
      simpa [heapGet] using ih n hr'

/-- C10: destroyService and destroyVolume return success unconditionally,
discarding every outcome of the underlying delete call — injected
collaborator failures included — so a caller can never observe a failed
service or volume teardown through the return value. -/
theorem destroy_returns_ok_unconditionally (i : Instance) (w : World) (inj : Option Err) :
    (destroyService i w inj).2 = .ok () ∧ (destroyVolume i w inj).2 = .ok () :=
  ⟨rfl, rfl⟩

/-- C8: destroyPod passes a zero grace period to the workload delete
primitive — the attempt is logged with grace 0 — and propagates exactly the
failures of that call: its result is ok precisely when the underlying delete
succeeded. -/
theorem destroyPod_zero_grace_and_propagates (i : Instance) (w : World) (inj : Option Err) :
    (destroyPod i w inj).1.ssDeleteLog = w.ssDeleteLog ++ [(i.k8sName, 0)] ∧
    isOkE (destroyPod i w inj).2 =
      isOkE (k8sDeleteStatefulSetWithGracePeriod w i.k8sName 0 inj).2 := by
  cases inj with
  | some e => simp [destroyPod, k8sDeleteStatefulSetWithGracePeriod, isOkE]
  | none =>
    cases h : alookup w.statefulSets i.k8sName <;>
      simp [destroyPod, k8sDeleteStatefulSetWithGracePeriod, h, isOkE]

/-- C7: teardown is idempotent against absence: when the target service and
claim do not exist, the underlying deletes return not-found errors, which
destroyService and destroyVolume suppress, returning success. -/
theorem destroy_idempotent_against_absence (i : Instance) (w : World)
    (hs : alookup w.services i.k8sName = none)
    (hv : pvcExists w.pvcs i.k8sName = false) :
    ((k8sDeleteService w i.k8sName none).2 = .error (.notFound i.k8sName) ∧
      (destroyService i w none).2 = .ok ()) ∧
    ((k8sDeletePersistentVolumeClaim w i.k8sName none).2 = .error (.notFound i.k8sName) ∧
      (destroyVolume i w none).2 = .ok ()) := by
  refine ⟨⟨?_, rfl⟩, ⟨?_, rfl⟩⟩
  · simp [k8sDeleteService, hs]
  · simp [k8sDeletePersistentVolumeClaim, hv]

/-- C7 witness: the suppression at a concrete instance and the empty
cluster. -/
theorem destroy_idempotent_against_absence_witness :
    ((k8sDeleteService w0 "db-a1b2c3d4" none).2 = .error (.notFound "db-a1b2c3d4") ∧
      (destroyService i0 w0 none).2 = .ok ()) ∧
    ((k8sDeletePersistentVolumeClaim w0 "db-a1b2c3d4" none).2 = .error (.notFound "db-a1b2c3d4") ∧
      (destroyVolume i0 w0 none).2 = .ok ()) :=
  destroy_idempotent_against_absence i0 w0 rfl rfl

/-- C1: deployService is not idempotent in this code: from an empty cluster
the first call succeeds, but the second call, finding the service present,
patches and then still falls through to the creation primitive — the
creation log shows two attempts — and returns an error instead of
converging. -/
theorem deployService_second_call_creates_again_and_errors :
    isOkE c1Run1.2 = true ∧
    isOkE c1Run2.2 = false ∧
    c1Run2.1.svcCreateLog = ["db-a1b2c3d4", "db-a1b2c3d4"] := by
  refine ⟨rfl, rfl, rfl⟩

/-- C5 counterexample: the clone holds the same portsTCP slice reference as
the original, so writing element 0 through the clone changes what the
original observes: 9090 where it previously observed 8080. -/
theorem cloneWithSuffix_ports_alias_counterexample :
    (cloneWithSuffix iH0 "-2").portsTCP = iH0.portsTCP ∧
    heapGet h0 iH0.portsTCP = [8080] ∧
    heapGet (sliceStore h0 (cloneWithSuffix iH0 "-2").portsTCP 0 9090) iH0.portsTCP = [9090] := by
  refine ⟨rfl, rfl, rfl⟩

/-- C5 amended: cloneWithSuffix appends the suffix to name and k8sName, but
copies portsTCP as a slice reference to the same backing array, so an
element write through the clone's portsTCP is observed through the
original's portsTCP (and, the references being equal, vice versa). -/
theorem cloneWithSuffix_amended (i : InstanceH) (s : String) (h : SliceHeap)
    (idx : Nat) (v : Int) :
    (cloneWithSuffix i s).name = i.name ++ s ∧
    (cloneWithSuffix i s).k8sName = i.k8sName ++ s ∧
    (cloneWithSuffix i s).portsTCP = i.portsTCP ∧
    heapGet (sliceStore h (cloneWithSuffix i s).portsTCP idx v) i.portsTCP =
      (heapGet h i.portsTCP).set idx v := by
  refine ⟨rfl, rfl, rfl, ?_⟩
  show heapGet (sliceStore h i.portsTCP idx v) i.portsTCP = (heapGet h i.portsTCP).set idx v
  unfold sliceStore
  rw [heapGet_heapSet_self]
  by_cases hr : i.portsTCP < h.length
  · simp [hr]
  · simp only [hr, if_false]
    rw [heapGet_out_of_range h i.portsTCP (by omega)]
    simp [List.set]

/-- C2 counterexample: patchService on an instance caching a stale handle
succeeds, but the resource ends up carrying the handle's stale labels, not
the labels the instance's label derivation currently produces. -/
theorem patchService_writes_stale_labels :
    isOkE (patchService iC2 wC2).2 = true ∧
    alookup (patchService iC2 wC2).1.services "db-a1b2c3d4" =
      some ⟨[("app", "old")], [("app", "old")], [8080], []⟩ ∧
    getLabels cfg0 iC2 ≠ [("app", "old")] := by
  refine ⟨rfl, rfl, by decide⟩

/-- C2 amended: patchService applies the cached service handle's labels and
selector together with the instance's current declared ports onto the
existing resource; and when no cached handle exists and the fetch of the
resource fails, it fails with a wrapped lookup error. -/
theorem patchService_amended (i : Instance) (w : World) (svc : ServiceSpec) :
    (i.kubernetesService = some svc → (alookup w.services i.k8sName).isSome = true →
      alookup (patchService i w).1.services i.k8sName =
        some ⟨svc.labels, svc.selector, i.portsTCP, i.portsUDP⟩ ∧
      (patchService i w).2 = .ok i) ∧
    (i.kubernetesService = none → alookup w.services i.k8sName = none →
      patchService i w =
        (w, .error (.wrapped ("error getting service " ++ i.k8sName)
          (.notFound i.k8sName)))) := by
  constructor
  · intro hc hex
    obtain ⟨s0, hs0⟩ := Option.isSome_iff_exists.mp hex
    have hset := alookup_aset w.services i.k8sName
      (⟨svc.labels, svc.selector, i.portsTCP, i.portsUDP⟩ : ServiceSpec)
    rw [hs0] at hset
    simp [patchService, hc, patchServiceApply, k8sPatchService, hs0, hset]
  · intro hc habs
    simp [patchService, hc, k8sGetService, habs]

/-- C2 witness: both branches of the amended statement at concrete inputs. -/
theorem patchService_amended_witness :
    (alookup (patchService iC2 wC2).1.services "db-a1b2c3d4" =
        some ⟨[("app", "old")], [("app", "old")], [8080], []⟩ ∧
      (patchService iC2 wC2).2 = .ok iC2) ∧
    patchService i0 w0 =
      (w0, .error (.wrapped "error getting service db-a1b2c3d4"
        (.notFound "db-a1b2c3d4"))) :=
  ⟨(patchService_amended iC2 wC2 svcOld).1 rfl rfl,
   (patchService_amended i0 w0 svcOld).2 rfl rfl⟩

/-- The MustParse sum is none exactly as soon as some declared size fails to
parse. -/
theorem sumVolumeSizes_eq_none (vols : List Volume)
    (h : ∃ v ∈ vols, parseQuantity v.size = none) : sumVolumeSizes vols = none := by
  induction vols with
  | nil => simp at h
  | cons v rest ih =>
    obtain ⟨u, hu, hpu⟩ := h
    rcases List.mem_cons.mp hu with rfl | hmem
    · simp [sumVolumeSizes, hpu]
    · cases hpv : parseQuantity v.size <;>
        simp [sumVolumeSizes, hpv, ih ⟨u, hmem, hpu⟩]

/-- When every declared size parses, the MustParse sum is the sum of the
parsed values. -/
theorem sumVolumeSizes_eq_some (vols : List Volume)
    (h : ∀ v ∈ vols, (parseQuantity v.size).isSome = true) :
    sumVolumeSizes vols =
      some ((vols.map (fun v => (parseQuantity v.size).getD 0)).sum) := by
  induction vols with
  | nil => rfl
  | cons v rest ih =>
    obtain ⟨q, hq⟩ := Option.isSome_iff_exists.mp (h v (by simp))
    have hrest := ih (fun u hu => h u (by simp [hu]))
    simp [sumVolumeSizes, hq, hrest]

/-- C3 counterexample: with an unparsable declared size, deployVolume panics
instead of returning an error; and with valid sizes but a failing claim
creation, it still reports success. -/
theorem deployVolume_panics_and_ignores_failures :
    deployVolume cfg0 iBadVol w0 = .panicked "resource.MustParse: unable to parse quantity" ∧
    (∃ w', deployVolume cfg0 iOneGi wFail = .normal (w', .ok ())) := by
  exact ⟨rfl, ⟨_, rfl⟩⟩

/-- C3 amended: deployVolume panics (via MustParse) whenever any declared
size fails to parse, and otherwise returns success unconditionally — the
outcome of the underlying claim creation is discarded, so a creation failure
is never reported; it never returns a volume-deployment error. -/
theorem deployVolume_amended (cfg : RunConfig) (i : Instance) (w : World) :
    ((∃ v ∈ i.volumes, parseQuantity v.size = none) →
      deployVolume cfg i w = .panicked "resource.MustParse: unable to parse quantity") ∧
    ((∀ v ∈ i.volumes, (parseQuantity v.size).isSome = true) →
      ∃ w', deployVolume cfg i w = .normal (w', .ok ())) := by
  constructor
  · intro h
    simp [deployVolume, sumVolumeSizes_eq_none i.volumes h]
  · intro h
    simp [deployVolume, sumVolumeSizes_eq_some i.volumes h]

/-- C3 witness: both branches of the amended statement at concrete inputs. -/
theorem deployVolume_amended_witness :
    deployVolume cfg0 iBadVol2 w0 = .panicked "resource.MustParse: unable to parse quantity" ∧
    (∃ w', deployVolume cfg0 iOneGi w0 = .normal (w', .ok ())) :=
  ⟨(deployVolume_amended cfg0 iBadVol2 w0).1 ⟨⟨"/data", "", "0:0"⟩, by decide, rfl⟩,
   (deployVolume_amended cfg0 iOneGi w0).2 (by decide)⟩

/-- C4: when every declared size parses, deployVolume requests exactly one
persistent volume claim, labeled with the instance's labels, whose capacity
is the sum of the parsed declared sizes. -/
theorem deployVolume_requests_one_aggregate_claim (cfg : RunConfig) (i : Instance) (w : World)
    (h : ∀ v ∈ i.volumes, (parseQuantity v.size).isSome = true) :
    ∃ w', deployVolume cfg i w = .normal (w', .ok ()) ∧
      w'.pvcs = w.pvcs ++
        [⟨i.k8sName, getLabels cfg i,
          ((i.volumes.map (fun v => (parseQuantity v.size).getD 0)).sum)⟩] := by
  refine ⟨(k8sDeployPersistentVolumeClaim w i.k8sName (getLabels cfg i)
      ((i.volumes.map (fun v => (parseQuantity v.size).getD 0)).sum)).1, ?_, ?_⟩
  · simp [deployVolume, sumVolumeSizes_eq_some i.volumes h]
  · by_cases hf : w.failPVCCreate <;> simp [k8sDeployPersistentVolumeClaim, hf]

/-- C4 witness: a 1Gi volume and a 2Gi volume yield a single claim of
exactly 3Gi (3221225472 bytes), the value of parsing "3Gi". -/
theorem deployVolume_requests_one_aggregate_claim_witness :
    (∃ w', deployVolume cfg0 iBoth w0 = .normal (w', .ok ()) ∧
      w'.pvcs = [⟨"db-a1b2c3d4", getLabels cfg0 iBoth, 3221225472⟩]) ∧
    parseQuantity "3Gi" = some 3221225472 :=
  ⟨deployVolume_requests_one_aggregate_claim cfg0 iBoth w0 (by decide), rfl⟩

/-- C6 counterexample: for an instance whose image is unresolved, two
successive pod deployments of the same instance hand two different image
references to the workload creation (the uuid source is consulted anew each
time), and the instance's imageName remains unset afterwards — the resolved
reference is never cached. -/
theorem deployPod_reresolves_image_counterexample :
    i0.imageName = "" ∧
    c6Run2.1.ssDeployLog.map (fun c => c.podConfig.image) =
      ["ttl.sh/aaaa:1h", "ttl.sh/bbbb:1h"] ∧
    c6Inst1.imageName = "" := by
  refine ⟨rfl, rfl, rfl⟩

/-- C6 amended: getImageRegistry returns the instance's imageName whenever it
is already set; but deployPod never stores a resolved reference back on the
instance, so for an instance with an unset imageName every deployment
resolves afresh and repeated deployments may use different references. -/
theorem getImageRegistry_amended (i : Instance) (u : Except String String) :
    (i.imageName ≠ "" → getImageRegistry i u = .ok i.imageName) ∧
    (∀ (cfg : RunConfig) (w : World) (i' : Instance),
      (deployPod cfg i u w).2 = .ok i' → i'.imageName = i.imageName) := by
  constructor
  · intro h
    simp [getImageRegistry, h]
  · intro cfg w i' heq
    unfold deployPod at heq
    cases hg : getImageRegistry i u with
    | error e =>
      rw [hg] at heq
      simp at heq
    | ok img =>
      rw [hg] at heq
      simp [k8sDeployStatefulSet] at heq
      subst heq
      rfl

/-- C6 witness: with a preset image name the resolver returns it, and a
concrete deployPod run leaves the instance's imageName unchanged. -/
theorem getImageRegistry_amended_witness :
    getImageRegistry iNamed (.ok "zzzz") = .ok "docker.io/app:v1" ∧
    c6wInst.imageName = iNamed.imageName :=
  ⟨(getImageRegistry_amended iNamed (.ok "zzzz")).1 (by decide),
   (getImageRegistry_amended iNamed (.ok "zzzz")).2 cfg0 w0 c6wInst rfl⟩

/-- goSplitChar never returns an empty list of pieces. -/
theorem goSplitChar_ne_nil (l : List Char) (c : Char) : goSplitChar l c ≠ [] := by
  cases l with
  | nil => simp [goSplitChar]
  | cons a t =>
    by_cases h : a = c
    · simp [goSplitChar, h]
    · simp only [goSplitChar, h, if_false]
      cases hr : goSplitChar t c <;> simp

/-- The number of pieces strings.Split yields is the separator count plus
one. -/
theorem goSplitChar_length (l : List Char) (c : Char) :
    (goSplitChar l c).length = countChar l c + 1 := by
  induction l with
  | nil => rfl
  | cons a t ih =>
    by_cases h : a = c
    · simp only [goSplitChar, countChar, h, if_true, List.length_cons, ih]
      omega
    · simp only [goSplitChar, countChar, h, if_false]
      cases hr : goSplitChar t c with
      | nil => exact absurd hr (goSplitChar_ne_nil t c)
      | cons x xs =>
        have h2 := ih
        rw [hr] at h2
        simp only [List.length_cons] at h2 ⊢
        omega

/-- strings.Contains for a single character is positivity of its count. -/
theorem goContainsChar_iff_count (l : List Char) (c : Char) :
    goContainsChar l c = true ↔ 0 < countChar l c := by
  induction l with
  | nil => simp [goContainsChar, countChar]
  | cons a t ih =>
    by_cases h : a = c <;> simp [goContainsChar, countChar, h, ih]

/-- The validator accepts exactly nonempty src, dest and chown with exactly
one colon in chown. -/
theorem validateFileArgs_ok_iff (i : Instance) (src dest chown : String) :
    validateFileArgs i src dest chown = .ok () ↔
      (src ≠ "" ∧ dest ≠ "" ∧ chown ≠ "" ∧ countChar chown.toList ':' = 1) := by
  unfold validateFileArgs
  by_cases h1 : src = ""
  · simp [h1]
  · by_cases h2 : dest = ""
    · simp [h1, h2]
    · by_cases h3 : chown = ""
      · simp [h1, h2, h3]
      · simp [h1, h2, h3]
        rw [goSplitChar_length, goContainsChar_iff_count]
        omega

/-- C9: file staging validates that src, dest and chown are nonempty and
that chown contains exactly one colon separator, failing otherwise; and on
valid input the builder collaborator receives the triple
(dest, dest, chown) — the destination path twice, never the source path. -/
theorem stageFile_validates_and_forwards_dest (i : Instance) (src dest chown : String)
    (b : BuilderState) (inj : Option Err) :
    (validateFileArgs i src dest chown = .ok () ↔
      (src ≠ "" ∧ dest ≠ "" ∧ chown ≠ "" ∧ countChar chown.toList ':' = 1)) ∧
    (validateFileArgs i src dest chown = .ok () →
      (addFileToBuilder i b src dest chown inj).1.calls =
        b.calls ++ [(dest, dest, chown)]) := by
  refine ⟨validateFileArgs_ok_iff i src dest chown, fun _ => ?_⟩
  cases inj <;> simp [addFileToBuilder, addToBuilder]

/-- C9 witness: staging "/src" to "/dest" with owner "user:group" passes
validation and the builder receives ("/dest", "/dest", "user:group"). -/
theorem stageFile_validates_and_forwards_dest_witness :
    validateFileArgs i0 "/src" "/dest" "user:group" = .ok () ∧
    (addFileToBuilder i0 ⟨[]⟩ "/src" "/dest" "user:group" none).1.calls =
      [("/dest", "/dest", "user:group")] := by
  have h := stageFile_validates_and_forwards_dest i0 "/src" "/dest" "user:group" ⟨[]⟩ none
  have hok : validateFileArgs i0 "/src" "/dest" "user:group" = .ok () :=
    h.1.mpr (by decide)
  exact ⟨hok, h.2 hok⟩

end Knuu
